import Mathlib

/-!
Shallow embedding of `monitor/parse.py`, a single-pass benchmark-result
aggregation pipeline, together with theorems settling the specification
claims about it.

Modelling conventions:
* Python/JSON numbers are modelled as rationals (`ℚ`); Python `round(x, n)`
  uses round-half-to-even, embedded as `roundHalfEven`.
* JSON objects are modelled as ordered association lists (insertion order,
  unique keys), matching `dict` semantics; `dict.get` is `getD` / `alookup`.
* A file on disk is `Option` (absent vs present); the content of a present
  file is `Except Unit` of its parsed form: `.error ()` stands for the
  `json.JSONDecodeError` / `ValueError` the Python parser raises on
  malformed content.  A resources CSV is modelled as the list of its data
  rows after the header, each row being the outcome (`Except Unit`) of the
  per-column `int`/`float` conversions; a header-only file is `[]`.
* The `metrics` mapping of a k6 summary is modelled directly as
  name ↦ values-mapping, collapsing the fixed `['values']` access
  (`data.get('metrics', {})` with a missing key behaves like the empty
  mapping, which the model realises as the empty list).
-/

/-- Round-half-to-even on rationals, the rounding rule of Python's builtin
`round` (banker's rounding). -/
def roundHalfEven (q : ℚ) : ℤ :=
  if q - (⌊q⌋ : ℚ) < 1/2 then ⌊q⌋
  else if 1/2 < q - (⌊q⌋ : ℚ) then ⌊q⌋ + 1
  else if ⌊q⌋ % 2 = 0 then ⌊q⌋ else ⌊q⌋ + 1

/-- Python `round(x, 2)`: round to two decimal places, half to even. -/
def round2 (q : ℚ) : ℚ := ((roundHalfEven (q * 100) : ℚ)) / 100

/-- Values mapping of one metric: the `values` object of a k6 metric entry,
statistic name ↦ number. -/
abbrev ValuesMap : Type := List (String × ℚ)

/-- The `metrics` object of a k6 summary JSON file: metric name ↦ its
`values` mapping. -/
abbrev Metrics : Type := List (String × ValuesMap)

/-- Python `d.get(key, dflt)` on an association list. -/
def getD (d : List (String × ℚ)) (k : String) (dflt : ℚ) : ℚ :=
  match d.find? (fun p => p.1 == k) with
  | some p => p.2
  | none => dflt

/-- Association-list lookup, `d[key]` / `key in d` combined: `some` iff the
key is present. -/
def alookup {α : Type} (d : List (String × α)) (k : String) : Option α :=
  (d.find? (fun p => p.1 == k)).map (fun p => p.2)

/-- The `latency` block built from `http_req_duration` (line 21-29 of
`parse.py`). -/
structure LatencyBlock where
  avg : ℚ
  p50 : ℚ
  p90 : ℚ
  p95 : ℚ
  p99 : ℚ
  min : ℚ
  max : ℚ
deriving DecidableEq, Repr

/-- The `ttfb` block built from `http_req_waiting` (line 34-39 of
`parse.py`). -/
structure TtfbBlock where
  avg : ℚ
  p50 : ℚ
  p95 : ℚ
  p99 : ℚ
deriving DecidableEq, Repr

/-- Result dictionary of `parse_k6_summary`: each field is `some` exactly
when the corresponding key was inserted (i.e. the metric family was
present in the input). -/
structure PerfResult where
  latency : Option LatencyBlock
  ttfb : Option TtfbBlock
  rps : Option ℚ
  total_requests : Option ℚ
  success_rate : Option ℚ
  error_count : Option ℚ
deriving DecidableEq, Repr

/-- Pure body of `parse_k6_summary` (lines 15-53 of `parse.py`), applied to
the already-decoded `metrics` mapping. -/
def parseK6 (metrics : Metrics) : PerfResult where
  latency := (alookup metrics "http_req_duration").map fun d =>
    { avg := round2 (getD d "avg" 0)
      p50 := round2 (getD d "med" 0)
      p90 := round2 (getD d "p(90)" 0)
      p95 := round2 (getD d "p(95)" 0)
      p99 := round2 (getD d "p(99)" 0)
      min := round2 (getD d "min" 0)
      max := round2 (getD d "max" 0) }
  ttfb := (alookup metrics "http_req_waiting").map fun d =>
    { avg := round2 (getD d "avg" 0)
      p50 := round2 (getD d "med" 0)
      p95 := round2 (getD d "p(95)" 0)
      p99 := round2 (getD d "p(99)" 0) }
  rps := (alookup metrics "http_reqs").map fun v => round2 (getD v "rate" 0)
  total_requests := (alookup metrics "http_reqs").map fun v => getD v "count" 0
  success_rate := (alookup metrics "success_rate").map fun v =>
    round2 (getD v "rate" 0 * 100)
  error_count := (alookup metrics "error_count").map fun v => getD v "count" 0

/-- One data row of a resources CSV after column conversion (lines 62-68 of
`parse.py`): `int(timestamp)`, `float(cpu_percent)`, `float(rss_mb)`,
`int(fd_count)`, `int(threads)`. -/
structure ResourceRow where
  timestamp : ℤ
  cpu : ℚ
  rss_mb : ℚ
  fd_count : ℤ
  threads : ℤ
deriving DecidableEq, Repr

/-- The `cpu` aggregate block of `parse_resources`. -/
structure CpuStats where
  avg : ℚ
  max : ℚ
  min : ℚ
deriving DecidableEq, Repr

/-- The `memory_mb` aggregate block of `parse_resources`. -/
structure MemStats where
  avg : ℚ
  max : ℚ
  min : ℚ
  growth : ℚ
deriving DecidableEq, Repr

/-- The `fd_count` aggregate block of `parse_resources`; Python
`round(x)` with no digit count returns an `int`. -/
structure FdStats where
  avg : ℤ
  max : ℤ
deriving DecidableEq, Repr

/-- Non-empty result of `parse_resources` (lines 77-94 of `parse.py`). -/
structure ResAgg where
  cpu : CpuStats
  memory_mb : MemStats
  fd_count : FdStats
  samples : ℕ
deriving DecidableEq, Repr

/-- Return value of `parse_resources`: `none` models the empty dict `{}`
returned when the file has no data rows. -/
abbrev ResourceRecord : Type := Option ResAgg

/-- Python `max(h :: t)`: maximum of a non-empty list. -/
def listMax (h : ℚ) (t : List ℚ) : ℚ := t.foldl max h

/-- Python `min(h :: t)`: minimum of a non-empty list. -/
def listMin (h : ℚ) (t : List ℚ) : ℚ := t.foldl min h

/-- Aggregation part of `parse_resources` on the converted rows
(lines 70-94 of `parse.py`). -/
def parseResourceRows (rows : List ResourceRow) : ResourceRecord :=
  match rows with
  | [] => none
  | r0 :: rs =>
    let cpus : List ℚ := (r0 :: rs).map (fun r => r.cpu)
    let rss : List ℚ := (r0 :: rs).map (fun r => r.rss_mb)
    let fds : List ℤ := (r0 :: rs).map (fun r => r.fd_count)
    some
      { cpu :=
          { avg := round2 (cpus.sum / (cpus.length : ℚ))
            max := round2 (listMax r0.cpu (rs.map (fun r => r.cpu)))
            min := round2 (listMin r0.cpu (rs.map (fun r => r.cpu))) }
        memory_mb :=
          { avg := round2 (rss.sum / (rss.length : ℚ))
            max := round2 (listMax r0.rss_mb (rs.map (fun r => r.rss_mb)))
            min := round2 (listMin r0.rss_mb (rs.map (fun r => r.rss_mb)))
            growth := round2 ((rs.getLastD r0).rss_mb - r0.rss_mb) }
        fd_count :=
          { avg := roundHalfEven ((fds.sum : ℚ) / (fds.length : ℚ))
            max := (rs.map (fun r => r.fd_count)).foldl max r0.fd_count }
        samples := (r0 :: rs).length }

/-- Whole `parse_resources` on a file's data rows, where each row carries
the outcome of its column conversions: a `ValueError` in any row
propagates (the Python loop raises at the first bad row). -/
def parseResources (fileRows : List (Except Unit ResourceRow)) :
    Except Unit ResourceRecord := do
  let rows ← fileRows.mapM id
  pure (parseResourceRows rows)

/-- The `parse_k6_summary` call on a file's decoded content: a
`json.JSONDecodeError` propagates. -/
def parsePerfFile (content : Except Unit Metrics) : Except Unit PerfResult :=
  match content with
  | .error e => .error e
  | .ok m => .ok (parseK6 m)

/-- The hardcoded gateway (variant) identifiers of `main` (line 104). -/
def gateways : List String := ["go", "node", "next"]

/-- The hardcoded scenario identifiers `s01`..`s10` of `main` (line 105). -/
def scenarios : List String :=
  ["s01", "s02", "s03", "s04", "s05", "s06", "s07", "s08", "s09", "s10"]

/-- Filesystem state seen by one run, keyed by (gateway, scenario).
`dirExists gw` models `(results_dir / gw).exists()`; `k6File gw sc` is the
content of `<gw>/<sc>-summary.json` (`none` when the file does not exist,
`some (.error ())` when it exists but is not valid JSON); `resFile gw sc`
is likewise `<gw>/<sc>-resources.csv`, a present file being its list of
data rows after the header; `summaryFile` is the content of
`<results_dir>/summary.json`. -/
structure FS where
  dirExists : String → Bool
  k6File : String → String → Option (Except Unit Metrics)
  resFile : String → String → Option (List (Except Unit ResourceRow))
  summaryFile : Option String

/-- Entry for one (gateway, scenario) pair: the keys `performance` and
`resources` are present (`some`) exactly when the corresponding file
existed and parsed. -/
structure Entry where
  performance : Option PerfResult
  resources : Option ResourceRecord
deriving DecidableEq

/-- The nested summary mapping variant ↦ scenario ↦ entry, as ordered
association lists (dict insertion order). -/
abbrev Summary : Type := List (String × List (String × Entry))

/-- Loop body for one (gateway, scenario) pair (lines 117-128 of
`parse.py`): parse the k6 summary if the file exists, then the resources
CSV if it exists; the pair contributes an entry only if at least one key
was set (`if entry:`).  A parse error propagates, aborting the run. -/
def processScenario (fs : FS) (gw sc : String) : Except Unit (Option Entry) := do
  let perf : Option PerfResult ←
    match fs.k6File gw sc with
    | none => Except.ok none
    | some content => (parsePerfFile content).map some
  let res : Option ResourceRecord ←
    match fs.resFile gw sc with
    | none => Except.ok none
    | some fileRows => (parseResources fileRows).map some
  if perf.isSome || res.isSome then pure (some ⟨perf, res⟩) else pure none

/-- Accumulating loop shared by the two levels of `main`: walk the list in
order, run the step, skip `none` results, append `some` results to the
ordered mapping, and propagate the first error. -/
def accumFoldAux {α : Type} (step : String → Except Unit (Option α)) :
    List String → List (String × α) → Except Unit (List (String × α))
  | [], acc => Except.ok acc
  | x :: t, acc =>
    match step x with
    | .error e => .error e
    | .ok none => accumFoldAux step t acc
    | .ok (some b) => accumFoldAux step t (acc ++ [(x, b)])

/-- Scenario loop of `main` for one gateway: builds `summary[gw]`. -/
def processGateway (fs : FS) (gw : String) : Except Unit (List (String × Entry)) :=
  accumFoldAux (processScenario fs gw) scenarios []

/-- Gateway loop of `main` (lines 109-128): a gateway whose directory does
not exist is skipped entirely; otherwise `summary[gw]` is set (possibly to
the empty mapping) and filled by the scenario loop. -/
def buildSummary (fs : FS) : Except Unit Summary :=
  accumFoldAux
    (fun gw =>
      if fs.dirExists gw then (processGateway fs gw).map some
      else Except.ok none)
    gateways []

/-- Two-space indentation prefix at nesting depth `n`, as produced by
`json.dump(..., indent=2)`. -/
def indentStr (n : ℕ) : String := String.join (List.replicate n "  ")

/-- Rendering of one JSON number.  Python writes the `repr` of the float;
the model abstracts the digit string to a fixed deterministic rendering of
the rational, which is all the byte-identity claims depend on. -/
def qRepr (q : ℚ) : String := toString q

/-- Rendering of one JSON object at nesting depth `ind` from its ordered
fields (values already rendered), as `json.dump(..., indent=2)` lays it
out: an empty object prints as open-close braces on one line. -/
def renderObj (ind : ℕ) (fields : List (String × String)) : String :=
  match fields with
  | [] => "\x7b\x7d"
  | _ =>
    "\x7b\n" ++
    String.intercalate ",\n"
      (fields.map (fun p => indentStr (ind + 1) ++ "\"" ++ p.1 ++ "\": " ++ p.2)) ++
    "\n" ++ indentStr ind ++ "\x7d"

/-- Serialization of a `latency` block. -/
def renderLatency (ind : ℕ) (l : LatencyBlock) : String :=
  renderObj ind
    [("avg", qRepr l.avg), ("p50", qRepr l.p50), ("p90", qRepr l.p90),
     ("p95", qRepr l.p95), ("p99", qRepr l.p99), ("min", qRepr l.min),
     ("max", qRepr l.max)]

/-- Serialization of a `ttfb` block. -/
def renderTtfb (ind : ℕ) (t : TtfbBlock) : String :=
  renderObj ind
    [("avg", qRepr t.avg), ("p50", qRepr t.p50), ("p95", qRepr t.p95),
     ("p99", qRepr t.p99)]

/-- Serialization of a `performance` record, keys in the insertion order of
`parse_k6_summary`. -/
def renderPerf (ind : ℕ) (p : PerfResult) : String :=
  renderObj ind (List.filterMap id
    [p.latency.map (fun l => ("latency", renderLatency (ind + 1) l)),
     p.ttfb.map (fun t => ("ttfb", renderTtfb (ind + 1) t)),
     p.rps.map (fun q => ("rps", qRepr q)),
     p.total_requests.map (fun q => ("total_requests", qRepr q)),
     p.success_rate.map (fun q => ("success_rate", qRepr q)),
     p.error_count.map (fun q => ("error_count", qRepr q))])

/-- Serialization of a `resources` record, keys in the insertion order of
`parse_resources`; the empty dict renders as an empty object. -/
def renderResources (ind : ℕ) (r : ResourceRecord) : String :=
  match r with
  | none => renderObj ind []
  | some a =>
    renderObj ind
      [("cpu", renderObj (ind + 1)
          [("avg", qRepr a.cpu.avg), ("max", qRepr a.cpu.max),
           ("min", qRepr a.cpu.min)]),
       ("memory_mb", renderObj (ind + 1)
          [("avg", qRepr a.memory_mb.avg), ("max", qRepr a.memory_mb.max),
           ("min", qRepr a.memory_mb.min),
           ("growth", qRepr a.memory_mb.growth)]),
       ("fd_count", renderObj (ind + 1)
          [("avg", toString a.fd_count.avg), ("max", toString a.fd_count.max)]),
       ("samples", toString a.samples)]

/-- Serialization of one (gateway, scenario) entry. -/
def renderEntry (ind : ℕ) (e : Entry) : String :=
  renderObj ind (List.filterMap id
    [e.performance.map (fun p => ("performance", renderPerf (ind + 1) p)),
     e.resources.map (fun r => ("resources", renderResources (ind + 1) r))])

/-- Serialization of the full summary, modelling
`json.dump(summary, f, indent=2)` (line 167 of `parse.py`). -/
def serializeSummary (s : Summary) : String :=
  renderObj 0
    (s.map (fun gp =>
      (gp.1, renderObj 1 (gp.2.map (fun sp => (sp.1, renderEntry 2 sp.2))))))

/-- Outcome of one process run: the usage path (lines 98-101, message
printed to standard output, `sys.exit(1)`), an uncaught exception (CPython
terminates the process with status 1; the filesystem is returned
untouched, in particular `summary.json` was not opened for writing), or
normal completion with `summary.json` written (line 165-167, exit
status 0). -/
inductive RunOutcome where
  | usage (printed : List String) (exitCode : ℕ)
  | crashed (exitCode : ℕ) (fs : FS)
  | completed (fs : FS) (s : Summary)

/-- The two lines printed by the usage path (lines 99-100 of `parse.py`). -/
def usageLines : List String :=
  ["Usage: python parse.py <results_dir>",
   "  results_dir should contain go/, node/, next/ subdirectories"]

/-- Process-level entry point `main` (lines 97-168 of `parse.py`); `argv`
includes the program name, so `len(sys.argv) < 2` means no directory
argument. -/
def mainEntry (argv : List String) (fs : FS) : RunOutcome :=
  if argv.length < 2 then .usage usageLines 1
  else
    match buildSummary fs with
    | .error _ => .crashed 1 fs
    | .ok s => .completed { fs with summaryFile := some (serializeSummary s) } s

/-- Exit status of a run outcome. -/
def RunOutcome.exitCode : RunOutcome → ℕ
  | .usage _ c => c
  | .crashed c _ => c
  | .completed _ _ => 0

/-- Table accessor for the RPS row of the comparison table (line 145 of
`parse.py`): the safe lookup chain
`d.get('performance', \x7b\x7d).get('rps', '-')`, `none` modelling the
placeholder dash. -/
def tableRps (e : Entry) : Option ℚ :=
  e.performance.bind (fun p => p.rps)

/-- Values of a latency block, in key order. -/
def LatencyBlock.fields (l : LatencyBlock) : List ℚ :=
  [l.avg, l.p50, l.p90, l.p95, l.p99, l.min, l.max]

/-- Values of a TTFB block, in key order. -/
def TtfbBlock.fields (t : TtfbBlock) : List ℚ :=
  [t.avg, t.p50, t.p95, t.p99]

/-- Concrete filesystem with no gateway directories and no files. -/
def fsEmpty : FS where
  dirExists := fun _ => false
  k6File := fun _ _ => none
  resFile := fun _ _ => none
  summaryFile := none

/-- Concrete filesystem whose only gateway directory is `go`, with a
malformed `go/s02-summary.json` and no other files. -/
def fsMalformed : FS where
  dirExists := fun g => g == "go"
  k6File := fun g sc => if g == "go" && sc == "s02" then some (.error ()) else none
  resFile := fun _ _ => none
  summaryFile := none

/-- Concrete filesystem whose only gateway directory is `go`, holding no
scenario files at all. -/
def fsGoOnly : FS where
  dirExists := fun g => g == "go"
  k6File := fun _ _ => none
  resFile := fun _ _ => none
  summaryFile := none

/-- Summary produced from `fsGoOnly`: the `go` variant maps to an empty
object. -/
def summaryGoOnly : Summary := [("go", [])]

/-- State of `fsGoOnly` after one successful run has written
`summary.json`. -/
def fsGoOnlyAfter : FS :=
  { fsGoOnly with summaryFile := some (serializeSummary summaryGoOnly) }

/-- Concrete values mapping of an `http_reqs` metric. -/
def vReqsOnly : ValuesMap := [("rate", 5)]

/-- Concrete metrics holding only `http_reqs`. -/
def mReqsOnly : Metrics := [("http_reqs", vReqsOnly)]

/-- Concrete resource row used as the single data row of an example CSV. -/
def rowExample : ResourceRow := ⟨1, 2, 3, 4, 5⟩

/-- Concrete well-formed resources CSV content with one data row. -/
def resRowsExample : List (Except Unit ResourceRow) := [Except.ok rowExample]

/-- Resource record parsed from `resRowsExample`. -/
def rrExample : ResourceRecord := parseResourceRows [rowExample]

/-- Concrete filesystem whose `go` directory holds only a well-formed
`s01-summary.json` (no `s01` resources CSV), a well-formed
`s03-resources.csv` (no `s03` summary), and nothing for any other
scenario. -/
def fsPerfOnly : FS where
  dirExists := fun g => g == "go"
  k6File := fun g sc => if g == "go" && sc == "s01" then some (.ok mReqsOnly) else none
  resFile := fun g sc => if g == "go" && sc == "s03" then some resRowsExample else none
  summaryFile := none

/-- Scenario mapping that `fsPerfOnly` produces for the `go` variant. -/
def entriesPerfOnly : List (String × Entry) :=
  [("s01", ⟨some (parseK6 mReqsOnly), none⟩), ("s03", ⟨none, some rrExample⟩)]

/-- Concrete `http_req_duration` values with `avg = 5.125`. -/
def dDurExample : ValuesMap := [("avg", (5125 : ℚ) / 1000)]

/-- Concrete `http_reqs` values with `rate = 123.456` and `count = 1000`,
the end-to-end example of the specification. -/
def vReqsExample : ValuesMap := [("rate", (123456 : ℚ) / 1000), ("count", 1000)]

/-- Concrete k6 metrics combining `dDurExample` and `vReqsExample`. -/
def mK6Example : Metrics :=
  [("http_req_duration", dDurExample), ("http_reqs", vReqsExample)]

/-- Concrete non-negative `http_req_duration` values. -/
def dDurNonneg : ValuesMap := [("avg", 3), ("med", 2)]

/-- Concrete non-negative `http_req_waiting` values. -/
def wWaitNonneg : ValuesMap := [("avg", 1)]

/-- Concrete `success_rate` values with fraction 1. -/
def svRateOne : ValuesMap := [("rate", 1)]

/-- Concrete metrics with duration, waiting and success-rate families. -/
def mNonneg : Metrics :=
  [("http_req_duration", dDurNonneg), ("http_req_waiting", wWaitNonneg),
   ("success_rate", svRateOne)]

/-- Lookup in a concatenation: the left mapping wins (first match). -/
theorem alookup_append {α : Type} (acc l : List (String × α)) (k : String) :
    alookup (acc ++ l) k = ((alookup acc k).orElse (fun _ => alookup l k)) := by
  induction acc with
  | nil => simp [alookup]
  | cons p t ih =>
    simp only [alookup, List.cons_append, List.find?] at ih ⊢
    cases hpk : (p.1 == k) with
    | true => simp
    | false => simpa using ih

/-- A binding already present is preserved by appending. -/
theorem alookup_append_of_some {α : Type} {acc : List (String × α)} {k : String}
    {v : α} (l : List (String × α)) (h : alookup acc k = some v) :
    alookup (acc ++ l) k = some v := by
  rw [alookup_append, h]; rfl

/-- Appending a singleton with a different key keeps a key absent. -/
theorem alookup_append_single_of_ne {α : Type} {acc : List (String × α)}
    {k : String} (x : String) (b : α) (h : alookup acc k = none) (hne : x ≠ k) :
    alookup (acc ++ [(x, b)]) k = none := by
  rw [alookup_append, h]
  have hb : (x == k) = false := beq_eq_false_iff_ne.mpr hne
  simp [alookup, List.find?, hb]

/-- Appending a singleton binds its own key when it was absent. -/
theorem alookup_append_single_self {α : Type} {acc : List (String × α)}
    {k : String} (b : α) (h : alookup acc k = none) :
    alookup (acc ++ [(k, b)]) k = some b := by
  rw [alookup_append, h]
  simp [alookup, List.find?]

/-- Every element of a list successfully traversed by the accumulating
loop had a successful step. -/
theorem accumFoldAux_ok_step {α : Type} {step : String → Except Unit (Option α)}
    {t : List String} {s : List (String × α)} {x : String}
    (acc : List (String × α)) (h : accumFoldAux step t acc = .ok s)
    (hx : x ∈ t) : ∃ r, step x = .ok r := by
  induction t generalizing acc with
  | nil => cases hx
  | cons y t2 ih =>
    rw [accumFoldAux] at h
    cases hy : step y with
    | error e => rw [hy] at h; cases h
    | ok r =>
      rcases List.mem_cons.mp hx with hxy | hxt
      · exact ⟨r, hxy ▸ hy⟩
      · rw [hy] at h
        cases r with
        | none => exact ih acc h hxt
        | some b => exact ih (acc ++ [(y, b)]) h hxt

/-- A binding present in the accumulator survives the accumulating loop. -/
theorem accumFoldAux_preserves_some {α : Type}
    {step : String → Except Unit (Option α)} {t : List String}
    {s : List (String × α)} {k : String} {v : α}
    (acc : List (String × α)) (h : accumFoldAux step t acc = .ok s)
    (hk : alookup acc k = some v) : alookup s k = some v := by
  induction t generalizing acc with
  | nil => rw [accumFoldAux] at h; cases h; exact hk
  | cons y t2 ih =>
    rw [accumFoldAux] at h
    cases hy : step y with
    | error e => rw [hy] at h; cases h
    | ok r =>
      rw [hy] at h
      cases r with
      | none => exact ih acc h hk
      | some b => exact ih (acc ++ [(y, b)]) h (alookup_append_of_some _ hk)

/-- A key stays unbound through the accumulating loop provided every
occurrence of it in the remaining input steps to `none`. -/
theorem accumFoldAux_none {α : Type}
    {step : String → Except Unit (Option α)} {t : List String}
    {s : List (String × α)} {k : String}
    (acc : List (String × α)) (h : accumFoldAux step t acc = .ok s)
    (hacc : alookup acc k = none)
    (hk : ∀ x ∈ t, x = k → step x = .ok none) : alookup s k = none := by
  induction t generalizing acc with
  | nil => rw [accumFoldAux] at h; cases h; exact hacc
  | cons y t2 ih =>
    rw [accumFoldAux] at h
    cases hy : step y with
    | error e => rw [hy] at h; cases h
    | ok r =>
      rw [hy] at h
      cases r with
      | none =>
        exact ih acc h hacc (fun x hx hxk => hk x (List.mem_cons_of_mem y hx) hxk)
      | some b =>
        have hne : y ≠ k := by
          intro hyk
          have := hk y (List.mem_cons_self y t2) hyk
          rw [hy] at this; cases this
        exact ih (acc ++ [(y, b)]) h (alookup_append_single_of_ne y b hacc hne)
          (fun x hx hxk => hk x (List.mem_cons_of_mem y hx) hxk)

/-- A key of the input whose step deterministically yields a value ends up
bound to that value after the accumulating loop (first occurrence wins,
matching dict insertion). -/
theorem accumFoldAux_lookup_of_step {α : Type}
    {step : String → Except Unit (Option α)} {t : List String}
    {s : List (String × α)} {k : String} {v : α}
    (acc : List (String × α)) (h : accumFoldAux step t acc = .ok s)
    (hacc : alookup acc k = none) (hmem : k ∈ t)
    (hstep : step k = .ok (some v)) : alookup s k = some v := by
  induction t generalizing acc with
  | nil => cases hmem
  | cons y t2 ih =>
    rw [accumFoldAux] at h
    by_cases hyk : y = k
    · subst hyk
      rw [hstep] at h
      exact accumFoldAux_preserves_some _ h (alookup_append_single_self v hacc)
    · cases hy : step y with
      | error e => rw [hy] at h; cases h
      | ok r =>
        rw [hy] at h
        have hmem2 : k ∈ t2 := by
          rcases List.mem_cons.mp hmem with hk2 | hk2
          · exact absurd hk2.symm hyk
          · exact hk2
        cases r with
        | none => exact ih acc h hacc hmem2
        | some b =>
          exact ih (acc ++ [(y, b)]) h
            (alookup_append_single_of_ne y b hacc hyk) hmem2

/-- When every remaining step yields `none`, the accumulating loop returns
the accumulator unchanged. -/
theorem accumFoldAux_all_none {α : Type}
    {step : String → Except Unit (Option α)} {t : List String}
    (acc : List (String × α)) (hk : ∀ x ∈ t, step x = .ok none) :
    accumFoldAux step t acc = .ok acc := by
  induction t with
  | nil => rfl
  | cons y t2 ih =>
    rw [accumFoldAux, hk y (List.mem_cons_self y t2)]
    exact ih (fun x hx => hk x (List.mem_cons_of_mem y hx))

/-- Rounding half to even never goes below zero on non-negative input. -/
theorem roundHalfEven_nonneg {q : ℚ} (h : 0 ≤ q) : 0 ≤ roundHalfEven q := by
  unfold roundHalfEven
  have hf : (0 : ℤ) ≤ ⌊q⌋ := Int.le_floor.mpr (by exact_mod_cast h)
  split_ifs <;> omega

/-- Two-decimal rounding never goes below zero on non-negative input. -/
theorem round2_nonneg {q : ℚ} (h : 0 ≤ q) : 0 ≤ round2 q := by
  unfold round2
  have hr : (0 : ℤ) ≤ roundHalfEven (q * 100) :=
    roundHalfEven_nonneg (by positivity)
  positivity

/-- Two-decimal rounding always lands on an integer multiple of 1/100. -/
theorem round2_is_two_decimal (q : ℚ) : ∃ k : ℤ, round2 q = (k : ℚ) / 100 :=
  ⟨roundHalfEven (q * 100), rfl⟩

/-- Value of `dict.get` when the key is present. -/
theorem getD_eq_of_alookup {d : List (String × ℚ)} {k : String} {v : ℚ}
    (dflt : ℚ) (h : alookup d k = some v) : getD d k dflt = v := by
  unfold alookup at h
  unfold getD
  cases hf : d.find? (fun p => p.1 == k) with
  | none => rw [hf] at h; cases h
  | some p =>
    rw [hf] at h
    simp only [Option.map_some'] at h
    simpa using h

/-- Value of `dict.get` is non-negative when the whole mapping and the
default are. -/
theorem getD_nonneg {d : List (String × ℚ)} (hd : ∀ p ∈ d, 0 ≤ p.2)
    (k : String) {dflt : ℚ} (h0 : 0 ≤ dflt) : 0 ≤ getD d k dflt := by
  unfold getD
  cases hf : d.find? (fun p => p.1 == k) with
  | none => exact h0
  | some p => exact hd p (List.mem_of_find?_eq_some hf)

/-- A malformed k6 summary file makes the scenario step raise. -/
theorem processScenario_error_k6 (fs : FS) (gw sc : String)
    (hk : fs.k6File gw sc = some (.error ())) :
    processScenario fs gw sc = .error () := by
  unfold processScenario
  rw [hk]
  rfl

/-- A pair with neither conventional file present contributes no entry. -/
theorem processScenario_both_missing (fs : FS) (gw sc : String)
    (hk : fs.k6File gw sc = none) (hr : fs.resFile gw sc = none) :
    processScenario fs gw sc = .ok none := by
  unfold processScenario
  rw [hk, hr]
  rfl

/-- A pair with only a well-formed k6 summary yields an entry with a
`performance` key and no `resources` key. -/
theorem processScenario_perf_only (fs : FS) (gw sc : String) (m : Metrics)
    (hk : fs.k6File gw sc = some (.ok m)) (hr : fs.resFile gw sc = none) :
    processScenario fs gw sc = .ok (some ⟨some (parseK6 m), none⟩) := by
  unfold processScenario
  rw [hk, hr]
  rfl

/-- A pair with only a well-formed resources CSV yields an entry with a
`resources` key and no `performance` key. -/
theorem processScenario_res_only (fs : FS) (gw sc : String)
    (fileRows : List (Except Unit ResourceRow)) (rr : ResourceRecord)
    (hk : fs.k6File gw sc = none) (hr : fs.resFile gw sc = some fileRows)
    (hparse : parseResources fileRows = Except.ok rr) :
    processScenario fs gw sc = .ok (some ⟨none, some rr⟩) := by
  unfold processScenario
  rw [hk, hr]
  show ((parseResources fileRows).map some).bind _ = _
  rw [hparse]
  rfl

/-- C3: for every resource CSV with at least one data row R1..Rn (file
order), the resource parser returns `memory_mb.growth = round(Rn.rss_mb -
R1.rss_mb, 2)`, `memory_mb.max = round(max rss_mb, 2)`, and analogously
`min` and `avg` (rounded to 2 decimals) for memory and cpu. -/
theorem resource_aggregates_formula (r0 : ResourceRow) (rs : List ResourceRow) :
    ∃ agg : ResAgg, parseResourceRows (r0 :: rs) = some agg ∧
      agg.memory_mb.growth =
        round2 (((r0 :: rs).getLast (List.cons_ne_nil r0 rs)).rss_mb - r0.rss_mb) ∧
      agg.memory_mb.max = round2 (listMax r0.rss_mb (rs.map (fun r => r.rss_mb))) ∧
      agg.memory_mb.min = round2 (listMin r0.rss_mb (rs.map (fun r => r.rss_mb))) ∧
      agg.memory_mb.avg =
        round2 (((r0 :: rs).map (fun r => r.rss_mb)).sum / (((r0 :: rs).length : ℚ))) ∧
      agg.cpu.max = round2 (listMax r0.cpu (rs.map (fun r => r.cpu))) ∧
      agg.cpu.min = round2 (listMin r0.cpu (rs.map (fun r => r.cpu))) ∧
      agg.cpu.avg =
        round2 (((r0 :: rs).map (fun r => r.cpu)).sum / (((r0 :: rs).length : ℚ))) := by
  refine ⟨_, rfl, ?_, ?_, ?_, ?_, ?_, ?_, ?_⟩ <;>
    simp [parseResourceRows, List.getLast_eq_getLastD]

/-- C7: for every non-empty sequence of resource rows, `fd_count.avg` is
the arithmetic mean of the `fd_count` column rounded to the nearest
integer (the result is an integer, no decimal places), while the cpu and
memory averages are rounded to 2 decimals. -/
theorem fd_avg_rounds_to_integer (r0 : ResourceRow) (rs : List ResourceRow) :
    ∃ agg : ResAgg, parseResourceRows (r0 :: rs) = some agg ∧
      agg.fd_count.avg =
        roundHalfEven (((((r0 :: rs).map (fun r => r.fd_count)).sum : ℤ) : ℚ) /
          (((r0 :: rs).length : ℚ))) ∧
      agg.cpu.avg =
        round2 (((r0 :: rs).map (fun r => r.cpu)).sum / (((r0 :: rs).length : ℚ))) ∧
      agg.memory_mb.avg =
        round2 (((r0 :: rs).map (fun r => r.rss_mb)).sum / (((r0 :: rs).length : ℚ))) := by
  refine ⟨_, rfl, ?_, ?_, ?_⟩ <;> simp [parseResourceRows]

/-- C8: a resources CSV with a header row and zero data rows (modelled as
the empty data-row list) makes the resource parser return the empty
mapping — `none`, carrying no `samples` key and no aggregate keys — and
not an error. -/
theorem empty_csv_yields_empty_record : parseResources [] = .ok none := rfl

/-- C4: for every valid k6-style input whose metrics contain
`http_req_duration.values.avg = X`, the parsed `latency.avg` is
`round(X, 2)`; and when `http_reqs.values` has `rate = R` and `count = C`,
the result has `rps = round(R, 2)` and `total_requests = C`, which is also
the value the RPS table row reads through its accessor path. -/
theorem k6_parser_rounds_avg_rps (metrics : Metrics) (d v : ValuesMap)
    (X R C : ℚ)
    (hd : alookup metrics "http_req_duration" = some d)
    (hX : alookup d "avg" = some X)
    (hv : alookup metrics "http_reqs" = some v)
    (hR : alookup v "rate" = some R)
    (hC : alookup v "count" = some C) :
    ((parseK6 metrics).latency.map (fun lb => lb.avg)) = some (round2 X) ∧
    (parseK6 metrics).rps = some (round2 R) ∧
    (parseK6 metrics).total_requests = some C ∧
    tableRps ⟨some (parseK6 metrics), none⟩ = some (round2 R) := by
  have hX2 := getD_eq_of_alookup 0 hX
  have hR2 := getD_eq_of_alookup 0 hR
  have hC2 := getD_eq_of_alookup 0 hC
  refine ⟨?_, ?_, ?_, ?_⟩ <;> simp [parseK6, tableRps, hd, hv, hX2, hR2, hC2]

/-- C6 (amended): when the statistics in the input metric families are
non-negative, every value in the latency block (fields
avg/p50/p90/p95/p99/min/max) and in the TTFB block (fields
avg/p50/p95/p99) is a non-negative rational that is an integer multiple of
1/100 (two decimal places), and `success_rate` is the input's 0-1 fraction
times 100, rounded to 2 decimals. -/
theorem latency_ttfb_values_rounded_nonneg (metrics : Metrics)
    (d w sv : ValuesMap) (rate : ℚ)
    (hd : alookup metrics "http_req_duration" = some d)
    (hdnn : ∀ p ∈ d, 0 ≤ p.2)
    (hw : alookup metrics "http_req_waiting" = some w)
    (hwnn : ∀ p ∈ w, 0 ≤ p.2)
    (hs : alookup metrics "success_rate" = some sv)
    (hrate : alookup sv "rate" = some rate) :
    ∃ (lb : LatencyBlock) (tb : TtfbBlock),
      (parseK6 metrics).latency = some lb ∧
      (parseK6 metrics).ttfb = some tb ∧
      (∀ x ∈ lb.fields ++ tb.fields, 0 ≤ x ∧ ∃ k : ℤ, x = (k : ℚ) / 100) ∧
      (parseK6 metrics).success_rate = some (round2 (rate * 100)) := by
  refine ⟨⟨round2 (getD d "avg" 0), round2 (getD d "med" 0),
          round2 (getD d "p(90)" 0), round2 (getD d "p(95)" 0),
          round2 (getD d "p(99)" 0), round2 (getD d "min" 0),
          round2 (getD d "max" 0)⟩,
        ⟨round2 (getD w "avg" 0), round2 (getD w "med" 0),
          round2 (getD w "p(95)" 0), round2 (getD w "p(99)" 0)⟩,
        ?_, ?_, ?_, ?_⟩
  · simp [parseK6, hd]
  · simp [parseK6, hw]
  · intro x hx
    simp only [LatencyBlock.fields, TtfbBlock.fields, List.mem_append,
      List.mem_cons, List.not_mem_nil, or_false] at hx
    rcases hx with hx | hx
    · rcases hx with h | h | h | h | h | h | h <;> subst h <;>
        exact ⟨round2_nonneg (getD_nonneg hdnn _ le_rfl), round2_is_two_decimal _⟩
    · rcases hx with h | h | h | h <;> subst h <;>
        exact ⟨round2_nonneg (getD_nonneg hwnn _ le_rfl), round2_is_two_decimal _⟩
  · rw [show (parseK6 metrics).success_rate =
        (alookup metrics "success_rate").map (fun v => round2 (getD v "rate" 0 * 100))
        from rfl, hs, Option.map_some', getD_eq_of_alookup 0 hrate]

/-- C6 counterexample: the performance parser does not clamp, so a
negative input statistic produces a negative latency value — refuting the
unconditional non-negativity of the claim. -/
theorem latency_value_can_be_negative :
    ∃ lb : LatencyBlock,
      (parseK6 [("http_req_duration", [("avg", -1)])]).latency = some lb ∧
      lb.avg < 0 := by
  refine ⟨_, rfl, ?_⟩
  show round2 (getD [("avg", -1)] "avg" 0) < 0
  rw [show getD [("avg", -1)] "avg" 0 = -1 from rfl]
  norm_num [round2, roundHalfEven]

/-- C2: for every (variant, scenario) pair a conventionally-named file
that does not exist is silently skipped: a pair with only the k6 summary
present yields an entry with a `performance` key and no `resources` key,
a pair with only the resources CSV present symmetrically yields an entry
with a `resources` key and no `performance` key, and a pair with neither
file present yields no entry at all in the variant's scenario mapping. -/
theorem missing_file_silently_skipped (fs : FS) (gw sc sc2 sc3 : String)
    (m : Metrics) (fileRows : List (Except Unit ResourceRow))
    (rr : ResourceRecord) (entries : List (String × Entry))
    (hsc : sc ∈ scenarios) (hsc3 : sc3 ∈ scenarios)
    (hk : fs.k6File gw sc = some (.ok m)) (hr : fs.resFile gw sc = none)
    (hk2 : fs.k6File gw sc2 = none) (hr2 : fs.resFile gw sc2 = none)
    (hk3 : fs.k6File gw sc3 = none) (hr3 : fs.resFile gw sc3 = some fileRows)
    (hparse : parseResources fileRows = Except.ok rr)
    (hok : processGateway fs gw = .ok entries) :
    alookup entries sc = some ⟨some (parseK6 m), none⟩ ∧
    alookup entries sc3 = some ⟨none, some rr⟩ ∧
    alookup entries sc2 = none := by
  refine ⟨?_, ?_, ?_⟩
  · exact accumFoldAux_lookup_of_step [] hok rfl hsc
      (processScenario_perf_only fs gw sc m hk hr)
  · exact accumFoldAux_lookup_of_step [] hok rfl hsc3
      (processScenario_res_only fs gw sc3 fileRows rr hk3 hr3 hparse)
  · refine accumFoldAux_none [] hok rfl (fun x hx hxk => ?_)
    rw [hxk]
    exact processScenario_both_missing fs gw sc2 hk2 hr2

/-- C2 witness: on the concrete `fsPerfOnly` filesystem the `go` mapping
binds `s01` to a performance-only entry, binds `s03` to a resources-only
entry, and has no binding for `s02`. -/
theorem missing_file_silently_skipped_witness :
    alookup entriesPerfOnly "s01" = some ⟨some (parseK6 mReqsOnly), none⟩ ∧
    alookup entriesPerfOnly "s03" = some ⟨none, some rrExample⟩ ∧
    alookup entriesPerfOnly "s02" = none :=
  missing_file_silently_skipped fsPerfOnly "go" "s01" "s02" "s03" mReqsOnly
    resRowsExample rrExample entriesPerfOnly (by decide) (by decide)
    rfl rfl rfl rfl rfl rfl rfl rfl

/-- C10: a variant whose subdirectory exists but holds no scenario file at
all still appears in the summary, bound to the empty object, while a
variant whose subdirectory does not exist is absent from the summary. -/
theorem empty_variant_dir_yields_empty_object (fs : FS) (gw gw2 : String)
    (s : Summary)
    (hgw : gw ∈ gateways)
    (hdir : fs.dirExists gw = true)
    (hempty : ∀ sc ∈ scenarios, fs.k6File gw sc = none ∧ fs.resFile gw sc = none)
    (hdir2 : fs.dirExists gw2 = false)
    (hok : buildSummary fs = .ok s) :
    alookup s gw = some [] ∧ alookup s gw2 = none := by
  have hpg : processGateway fs gw = .ok [] :=
    accumFoldAux_all_none [] (fun sc hsc =>
      processScenario_both_missing fs gw sc (hempty sc hsc).1 (hempty sc hsc).2)
  constructor
  · refine accumFoldAux_lookup_of_step [] hok rfl hgw ?_
    show (if fs.dirExists gw then (processGateway fs gw).map some else Except.ok none) =
      Except.ok (some [])
    rw [hdir, hpg]
    rfl
  · refine accumFoldAux_none [] hok rfl (fun x hx hxk => ?_)
    show (if fs.dirExists x then (processGateway fs x).map some else Except.ok none) =
      Except.ok none
    rw [hxk, hdir2]
    rfl

/-- C10 witness: on the concrete `fsGoOnly` filesystem the written summary
binds `go` to the empty object and has no binding for `node`. -/
theorem empty_variant_dir_yields_empty_object_witness :
    alookup summaryGoOnly "go" = some [] ∧ alookup summaryGoOnly "node" = none :=
  empty_variant_dir_yields_empty_object fsGoOnly "go" "node" summaryGoOnly
    (by decide) rfl (fun _ _ => ⟨rfl, rfl⟩) rfl rfl

/-- C1: if any per-scenario summary JSON file that exists under a scanned
gateway directory is malformed, the run aborts with the uncaught-exception
outcome: non-zero exit status 1, the filesystem returned untouched (so
`summary.json` is not created, and a pre-existing one is byte-for-byte
unchanged), and no partial summary is produced. -/
theorem malformed_json_aborts_run (argv : List String) (fs : FS)
    (gw sc : String)
    (hargv : 2 ≤ argv.length)
    (hgw : gw ∈ gateways) (hsc : sc ∈ scenarios)
    (hdir : fs.dirExists gw = true)
    (hbad : fs.k6File gw sc = some (.error ())) :
    mainEntry argv fs = .crashed 1 fs ∧ (mainEntry argv fs).exitCode ≠ 0 := by
  have hnotok : ∀ s, buildSummary fs ≠ .ok s := by
    intro s hok
    obtain ⟨r, hr⟩ := accumFoldAux_ok_step [] hok hgw
    rw [hdir] at hr
    simp only [if_true] at hr
    cases hpg : processGateway fs gw with
    | error e => rw [hpg] at hr; cases hr
    | ok entries =>
      obtain ⟨r2, hr2⟩ := accumFoldAux_ok_step [] hpg hsc
      rw [processScenario_error_k6 fs gw sc hbad] at hr2
      cases hr2
  have herr : buildSummary fs = .error () := by
    cases hb : buildSummary fs with
    | ok s => exact (hnotok s hb).elim
    | error e => cases e; rfl
  have hmain : mainEntry argv fs = .crashed 1 fs := by
    unfold mainEntry
    rw [if_neg (by omega : ¬ argv.length < 2), herr]
  exact ⟨hmain, by rw [hmain]; exact one_ne_zero⟩

/-- C1 witness: the concrete `fsMalformed` filesystem, whose
`go/s02-summary.json` is invalid JSON, crashes the run with exit status 1
and an untouched filesystem. -/
theorem malformed_json_aborts_run_witness :
    mainEntry ["parse.py", "results"] fsMalformed = .crashed 1 fsMalformed ∧
    (mainEntry ["parse.py", "results"] fsMalformed).exitCode ≠ 0 :=
  malformed_json_aborts_run ["parse.py", "results"] fsMalformed "go" "s02"
    (by decide) (by decide) (by decide) rfl rfl

/-- Rebuilding the summary does not depend on the content of the output
file `summary.json`. -/
theorem buildSummary_ignores_summaryFile (fs : FS) (o : Option String) :
    buildSummary { fs with summaryFile := o } = buildSummary fs := rfl

/-- C5: the pipeline is deterministic and idempotent in its inputs: a
second run on the results directory left by a completed first run reads
the same gateway files, rebuilds the same summary and writes byte-for-byte
identical `summary.json` content. -/
theorem rerun_produces_identical_summary (argv : List String) (fs fs2 : FS)
    (s : Summary) (h : mainEntry argv fs = .completed fs2 s) :
    mainEntry argv fs2 = .completed fs2 s := by
  by_cases hlen : argv.length < 2
  · unfold mainEntry at h
    rw [if_pos hlen] at h
    cases h
  · unfold mainEntry at h
    rw [if_neg hlen] at h
    cases hb : buildSummary fs with
    | error e => rw [hb] at h; cases h
    | ok s0 =>
      rw [hb] at h
      rw [RunOutcome.completed.injEq] at h
      obtain ⟨h1, h2⟩ := h
      subst h2
      subst h1
      unfold mainEntry
      rw [if_neg hlen,
        (buildSummary_ignores_summaryFile fs (some (serializeSummary s0))).trans hb]

/-- C5 witness: a second run on the filesystem left by a completed run on
`fsGoOnly` completes with the same summary and the same written bytes. -/
theorem rerun_produces_identical_summary_witness :
    mainEntry ["parse.py", "results"] fsGoOnlyAfter =
      .completed fsGoOnlyAfter summaryGoOnly :=
  rerun_produces_identical_summary ["parse.py", "results"] fsGoOnly
    fsGoOnlyAfter summaryGoOnly rfl

/-- C9 (amended): invoked with no results-directory argument, the program
prints the usage message on standard output and exits with the non-zero
status 1 — the same status as the malformed-content path, hence not a
distinct code. -/
theorem usage_message_and_exit_code (argv : List String) (fs : FS)
    (h : argv.length < 2) :
    mainEntry argv fs = .usage usageLines 1 ∧
    (mainEntry argv fs).exitCode ≠ 0 := by
  have hm : mainEntry argv fs = .usage usageLines 1 := by
    unfold mainEntry
    rw [if_pos h]
  exact ⟨hm, by rw [hm]; exact one_ne_zero⟩

/-- C9 witness: with only the program name in `argv`, the run takes the
usage path with exit status 1. -/
theorem usage_message_and_exit_code_witness :
    mainEntry ["parse.py"] fsEmpty = .usage usageLines 1 ∧
    (mainEntry ["parse.py"] fsEmpty).exitCode ≠ 0 :=
  usage_message_and_exit_code ["parse.py"] fsEmpty (by decide)

/-- C9 counterexample: the usage path and the malformed-content path both
terminate with exit status 1, so the usage exit code is not distinct from
the malformed-content exit code. -/
theorem usage_exit_code_not_distinct :
    mainEntry ["parse.py"] fsEmpty = .usage usageLines 1 ∧
    mainEntry ["parse.py", "results"] fsMalformed = .crashed 1 fsMalformed ∧
    (mainEntry ["parse.py"] fsEmpty).exitCode =
      (mainEntry ["parse.py", "results"] fsMalformed).exitCode :=
  ⟨rfl, rfl, rfl⟩

/-- C4 witness: the specification's end-to-end example, `avg = 5.125`,
`rate = 123.456`, `count = 1000`, yields `latency.avg = round(5.125, 2)`,
`rps = round(123.456, 2) = 123.46` and `total_requests = 1000`. -/
theorem k6_parser_rounds_avg_rps_witness :
    (((parseK6 mK6Example).latency.map (fun lb => lb.avg)) =
        some (round2 ((5125 : ℚ) / 1000)) ∧
      (parseK6 mK6Example).rps = some (round2 ((123456 : ℚ) / 1000)) ∧
      (parseK6 mK6Example).total_requests = some 1000 ∧
      tableRps ⟨some (parseK6 mK6Example), none⟩ =
        some (round2 ((123456 : ℚ) / 1000))) ∧
    round2 ((123456 : ℚ) / 1000) = (12346 : ℚ) / 100 :=
  ⟨k6_parser_rounds_avg_rps mK6Example dDurExample vReqsExample
      ((5125 : ℚ) / 1000) ((123456 : ℚ) / 1000) 1000 rfl rfl rfl rfl rfl,
    by norm_num [round2, roundHalfEven]⟩

/-- C6 witness: on the concrete non-negative metrics `mNonneg` the latency
and TTFB blocks consist of non-negative two-decimal values, and
`success_rate` is the fraction 1 scaled to a percentage. -/
theorem latency_ttfb_values_rounded_nonneg_witness :
    ∃ (lb : LatencyBlock) (tb : TtfbBlock),
      (parseK6 mNonneg).latency = some lb ∧
      (parseK6 mNonneg).ttfb = some tb ∧
      (∀ x ∈ lb.fields ++ tb.fields, 0 ≤ x ∧ ∃ k : ℤ, x = (k : ℚ) / 100) ∧
      (parseK6 mNonneg).success_rate = some (round2 (1 * 100)) :=
  latency_ttfb_values_rounded_nonneg mNonneg dDurNonneg wWaitNonneg svRateOne 1
    rfl
    (by intro p hp
        simp only [dDurNonneg, List.mem_cons, List.not_mem_nil, or_false] at hp
        rcases hp with rfl | rfl <;> norm_num)
    rfl
    (by intro p hp
        simp only [wWaitNonneg, List.mem_cons, List.not_mem_nil, or_false] at hp
        rcases hp with rfl
        norm_num)
    rfl rfl
